import Mathlib

/-!
# Verification of `parse_csv.py` (beetroot_fnirs)

Shallow embedding of the HRF CSV pipeline: `parse_hrf_csv` (existence
check, CSV load, column split by substring match, conversion to numeric
matrices) and `disp_avg_HRF` (per-row channel means, `linspace(0, 20, N)`
time axis, figure construction).  Numeric values are modelled as
rationals; the IEEE `NaN` produced by `np.mean` on a zero-width axis is
modelled by `Option ℚ` (`none` = NaN).
-/

namespace Beetroot

/-- A named column of a pandas `DataFrame`, values as exact rationals. -/
structure Column where
  name : String
  values : List ℚ
deriving DecidableEq, Repr

/-- A pandas `DataFrame`: an index of length `nrows` plus named columns.
The row count is carried by the index, independent of the columns
(pandas keeps the index even when every column is dropped). -/
structure DataFrame where
  nrows : Nat
  cols : List Column
deriving DecidableEq, Repr

/-- Well-formedness: every column holds one value per row. -/
def DataFrame.WF (df : DataFrame) : Prop :=
  ∀ c ∈ df.cols, c.values.length = df.nrows

/-- Python's substring test `sub in s`, used by `DataFrame.filter(like=sub)`:
`sub.data` occurs contiguously inside `s.data` (case-sensitive). -/
def strContainsSub (s sub : String) : Bool :=
  decide (sub.data <:+: s.data)

/-- Model of `df.filter(like=sub)`: keep exactly the columns whose name contains
`sub`; the index (row count) is preserved. -/
def DataFrame.filterLike (df : DataFrame) (sub : String) : DataFrame :=
  ⟨df.nrows, df.cols.filter (fun c => strContainsSub c.name sub)⟩

/-- A NumPy 2-d array as produced by `df.values`: the row count is part of
the shape even when there are zero columns; data is stored per column. -/
structure NpMat where
  nrows : Nat
  cols : List (List ℚ)
deriving DecidableEq, Repr

/-- Model of `df.values`: drop the column names, keep shape `(nrows, #cols)`. -/
def DataFrame.values (df : DataFrame) : NpMat :=
  ⟨df.nrows, df.cols.map Column.values⟩

/-- Errors `parse_hrf_csv` can signal: the explicit `FileNotFoundError`
raised before any read, and whatever `pd.read_csv` raises on bad content. -/
inductive ParseError where
  | fileNotFound (path : String)
  | malformed (msg : String)
deriving DecidableEq, Repr

/-- The ambient filesystem: which paths exist (`os.path.exists`) and what
`pd.read_csv` yields for a path (a table, or a parse failure message). -/
structure FileSystem where
  pathExists : String → Bool
  readCsv : String → Except String DataFrame

/-- Model of `parse_hrf_csv(file_path)`: raise `FileNotFoundError` if the path does
not exist, else read the CSV and return the two matrices obtained by
filtering on the substrings `"ts_ch"` and `"std_ch"`. -/
def parse_hrf_csv (fs : FileSystem) (file_path : String) :
    Except ParseError (NpMat × NpMat) :=
  if fs.pathExists file_path = false then
    .error (.fileNotFound file_path)
  else
    match fs.readCsv file_path with
    | .error msg => .error (.malformed msg)
    | .ok df =>
        let df_ts := df.filterLike "ts_ch"
        let df_std := df.filterLike "std_ch"
        .ok (df_ts.values, df_std.values)

/-- Model of `np.mean(m, axis=1)`: one value per row, the unweighted mean across
the columns; a zero-width axis yields NaN (`none`) in every entry. -/
def NpMat.meanAxis1 (m : NpMat) : List (Option ℚ) :=
  (List.range m.nrows).map (fun i =>
    if m.cols.length = 0 then none
    else some ((m.cols.map (fun col => col.getD i 0)).sum / m.cols.length))

/-- Model of `np.linspace(start, stop, num)`: `num` evenly spaced samples including
both endpoints; `num = 1` yields `[start]`, `num = 0` yields `[]`. -/
def linspace (start stop : ℚ) (num : Nat) : List ℚ :=
  if num = 0 then []
  else if num = 1 then [start]
  else (List.range num).map
    (fun i : Nat => start + (stop - start) * i / ((num : ℚ) - 1))

/-- NumPy elementwise subtraction on same-length vectors; NaN propagates. -/
def optSub : Option ℚ → Option ℚ → Option ℚ
  | some a, some b => some (a - b)
  | _, _ => none

/-- NumPy elementwise addition on same-length vectors; NaN propagates. -/
def optAdd : Option ℚ → Option ℚ → Option ℚ
  | some a, some b => some (a + b)
  | _, _ => none

/-- Elementwise `ts_mean - std_avg` on NumPy 1-d arrays. -/
def npSub (a b : List (Option ℚ)) : List (Option ℚ) := List.zipWith optSub a b

/-- Elementwise `ts_mean + std_avg` on NumPy 1-d arrays. -/
def npAdd (a b : List (Option ℚ)) : List (Option ℚ) := List.zipWith optAdd a b

/-- One `plt.fill_between` call: x values, lower and upper bounds, styling. -/
structure FillSpec where
  x : List ℚ
  lower : List (Option ℚ)
  upper : List (Option ℚ)
  color : String
  alpha : ℚ
  edgecolor : String
  label : String
deriving DecidableEq, Repr

/-- One `plt.plot` call: x and y values plus styling. -/
structure LineSpec where
  x : List ℚ
  y : List (Option ℚ)
  color : String
  linewidth : ℚ
  zorder : ℚ
  label : String
deriving DecidableEq, Repr

/-- The matplotlib figure being built by `disp_avg_HRF`. -/
structure Figure where
  figsize : ℚ × ℚ
  fills : List FillSpec
  linePlots : List LineSpec
  hlines : List ℚ
  ylim : Option (ℚ × ℚ)
  title : String
  xlabel : String
  ylabel : String
  legendOn : Bool
  tickDirectionIn : Bool
  tightLayout : Bool
  savedTo : Option (String × Nat)
  shown : Bool
deriving DecidableEq, Repr

/-- Model of `plt.figure(figsize=(8, 5))`: a fresh, empty figure. -/
def Figure.empty : Figure :=
  ⟨(8, 5), [], [], [], none, "", "", "", false, false, false, none, false⟩

/-- The renderer state: the three numeric input vectors handed to the
plotting calls, together with the figure under construction.  Every
`plt.*` step below reads the vectors and writes only the figure. -/
structure RenderState where
  t : List ℚ
  ts_mean : List (Option ℚ)
  std_avg : List (Option ℚ)
  fig : Figure
deriving DecidableEq, Repr

/-- Model of `plt.fill_between(t, ts_mean - std, ts_mean + std, ...)`. -/
def plt_fill_between (s : RenderState) : RenderState :=
  { s with fig := { s.fig with fills := s.fig.fills ++
      [⟨s.t, npSub s.ts_mean s.std_avg, npAdd s.ts_mean s.std_avg,
        "#A6CEE3", 6/10, "none", "Mean $\\pm$ 1 SD"⟩] } }

/-- Model of `plt.plot(t, ts_mean, color='#000000', linewidth=2.5, zorder=3)`. -/
def plt_plot_mean (s : RenderState) : RenderState :=
  { s with fig := { s.fig with linePlots := s.fig.linePlots ++
      [⟨s.t, s.ts_mean, "#000000", 5/2, 3, "Mean HRF"⟩] } }

/-- Model of `if y_lim is not None: plt.ylim(y_lim)`. -/
def plt_set_ylim (y_lim : Option (ℚ × ℚ)) (s : RenderState) : RenderState :=
  match y_lim with
  | some r => { s with fig := { s.fig with ylim := some r } }
  | none => s

/-- Model of `plt.axhline(0, ...)`: the zero reference line. -/
def plt_axhline_zero (s : RenderState) : RenderState :=
  { s with fig := { s.fig with hlines := s.fig.hlines ++ [0] } }

/-- Title, axis labels, legend, tick direction and layout calls. -/
def plt_decorations (title : String) (s : RenderState) : RenderState :=
  { s with fig := { s.fig with
      title := title, xlabel := "Time (s)",
      ylabel := "Concentration Change ($\\mu$M)",
      legendOn := true, tickDirectionIn := true, tightLayout := true } }

/-- Model of `plt.savefig(filepath_fig, dpi=300) if filepath_fig else None`:
Python truthiness makes both `None` and the empty string skip the save. -/
def plt_savefig (filepath_fig : Option String) (s : RenderState) : RenderState :=
  match filepath_fig with
  | some p =>
      if p = "" then s
      else { s with fig := { s.fig with savedTo := some (p, 300) } }
  | none => s

/-- Model of `if show: plt.show()`. -/
def plt_show_if (showFlag : Bool) (s : RenderState) : RenderState :=
  if showFlag then { s with fig := { s.fig with shown := true } } else s

/-- Lines 57-94 of `disp_avg_HRF`: build the figure from the time axis,
mean trace and spread trace. -/
def renderHRF (t : List ℚ) (ts_mean std_avg : List (Option ℚ))
    (title : String) (filepath_fig : Option String) (showFlag : Bool)
    (y_lim : Option (ℚ × ℚ)) : RenderState :=
  plt_show_if showFlag
    (plt_savefig filepath_fig
      (plt_decorations title
        (plt_axhline_zero
          (plt_set_ylim y_lim
            (plt_plot_mean
              (plt_fill_between ⟨t, ts_mean, std_avg, Figure.empty⟩))))))

/-- Model of `disp_avg_HRF(filepath, title, filepath_fig, show, y_lim)`: parse,
reduce across channels, build the 0..20 time axis, render. -/
def disp_avg_HRF (fs : FileSystem) (filepath : String) (title : String)
    (filepath_fig : Option String) (showFlag : Bool) (y_lim : Option (ℚ × ℚ)) :
    Except ParseError RenderState :=
  match parse_hrf_csv fs filepath with
  | .error e => .error e
  | .ok (ts, std) =>
      let ts_mean := ts.meanAxis1
      let std_avg_across_channels := std.meanAxis1
      let num_timepoints := ts.nrows
      let t := linspace 0 20 num_timepoints
      .ok (renderHRF t ts_mean std_avg_across_channels title filepath_fig
             showFlag y_lim)

/-! ## Helper lemmas -/

/-- On an existing, readable path, `parse_hrf_csv` returns the two
filtered matrices. -/
theorem parse_hrf_csv_ok (fs : FileSystem) (path : String) (df : DataFrame)
    (hex : fs.pathExists path = true) (hread : fs.readCsv path = .ok df) :
    parse_hrf_csv fs path =
      .ok ((df.filterLike "ts_ch").values, (df.filterLike "std_ch").values) := by
  simp [parse_hrf_csv, hex, hread]

/-- The channel-mean vector always has one entry per row. -/
theorem meanAxis1_length (m : NpMat) : m.meanAxis1.length = m.nrows := by
  simp [NpMat.meanAxis1]

/-- Filtering preserves the row count of the frame. -/
theorem filterLike_nrows (df : DataFrame) (sub : String) :
    (df.filterLike sub).nrows = df.nrows := rfl

/-- Conversion `df.values` keeps the frame's row count as the first shape component. -/
theorem values_nrows (df : DataFrame) : df.values.nrows = df.nrows := rfl

end Beetroot

namespace Beetroot

/-- Every plotting step only writes the figure, so the rendered state
keeps the three input vectors. -/
theorem renderHRF_fields (t : List ℚ) (m sd : List (Option ℚ))
    (title : String) (fp : Option String) (sh : Bool) (yl : Option (ℚ × ℚ)) :
    (renderHRF t m sd title fp sh yl).t = t
    ∧ (renderHRF t m sd title fp sh yl).ts_mean = m
    ∧ (renderHRF t m sd title fp sh yl).std_avg = sd := by
  cases yl <;> cases fp <;> cases sh <;>
    simp [renderHRF, plt_show_if, plt_savefig, plt_decorations, plt_axhline_zero,
      plt_set_ylim, plt_plot_mean, plt_fill_between] <;>
    split <;> simp

/-! ## Claim theorems -/

/-- C2: for every non-existent path, `parse_hrf_csv` signals
`FileNotFoundError` — independently of what reading the file would have
produced, i.e. before any read or parse — and that condition is
distinguishable from the generic parse error on malformed content. -/
theorem parse_missing_file_distinct (fs : FileSystem) (path : String)
    (hex : fs.pathExists path = false) :
    parse_hrf_csv fs path = .error (.fileNotFound path)
    ∧ (∀ fs₂ : FileSystem, fs₂.pathExists = fs.pathExists →
        parse_hrf_csv fs₂ path = .error (.fileNotFound path))
    ∧ (∀ p msg : String, ParseError.fileNotFound p ≠ ParseError.malformed msg) := by
  refine ⟨by simp [parse_hrf_csv, hex], fun fs₂ h₂ => by simp [parse_hrf_csv, h₂, hex],
    fun p msg h => ParseError.noConfusion h⟩

/-- A filesystem with no files, for the C2 witness. -/
def fsEmpty : FileSystem := ⟨fun _ => false, fun _ => .error "empty"⟩

/-- C2 witness at a concrete missing path. -/
theorem parse_missing_file_distinct_witness :
    parse_hrf_csv fsEmpty "before_hrf_hbo.csv" =
      .error (.fileNotFound "before_hrf_hbo.csv") :=
  (parse_missing_file_distinct fsEmpty "before_hrf_hbo.csv" rfl).1

/-- C9: the renderer only reads the time axis, mean trace and spread
trace; after every plotting, saving and showing step the three data
vectors in the final state are the inputs, unchanged. -/
theorem renderer_preserves_inputs (t : List ℚ) (m sd : List (Option ℚ))
    (title : String) (fp : Option String) (sh : Bool) (yl : Option (ℚ × ℚ)) :
    (renderHRF t m sd title fp sh yl).t = t
    ∧ (renderHRF t m sd title fp sh yl).ts_mean = m
    ∧ (renderHRF t m sd title fp sh yl).std_avg = sd :=
  renderHRF_fields t m sd title fp sh yl

/-- C3: for a well-formed table with equal nonzero counts of `ts_ch` and
`std_ch` columns, the reducer's two output vectors each have length equal
to the table's row count. -/
theorem reducer_output_lengths (fs : FileSystem) (path : String)
    (df : DataFrame) (ts std : NpMat)
    (hex : fs.pathExists path = true) (hread : fs.readCsv path = .ok df)
    (hwf : df.WF)
    (heq : (df.filterLike "ts_ch").cols.length =
           (df.filterLike "std_ch").cols.length)
    (hnz : (df.filterLike "ts_ch").cols.length ≠ 0)
    (hok : parse_hrf_csv fs path = .ok (ts, std)) :
    ts.meanAxis1.length = df.nrows ∧ std.meanAxis1.length = df.nrows := by
  rw [parse_hrf_csv_ok fs path df hex hread] at hok
  simp only [Except.ok.injEq, Prod.mk.injEq] at hok
  obtain ⟨hts, hstd⟩ := hok
  subst hts hstd
  exact ⟨meanAxis1_length _, meanAxis1_length _⟩

/-- The end-to-end example table of the spec: two mean and two spread
channels over two rows. -/
def dfHRF : DataFrame :=
  ⟨2, [⟨"ts_ch1", [1, 3]⟩, ⟨"ts_ch2", [1, 5]⟩,
       ⟨"std_ch1", [0, 0]⟩, ⟨"std_ch2", [0, 2]⟩]⟩

/-- A filesystem holding only `hrf.csv`, mapped to `dfHRF`. -/
def fsHRF : FileSystem :=
  ⟨fun p => p == "hrf.csv",
   fun p => if p == "hrf.csv" then .ok dfHRF else .error "missing"⟩

/-- C3 witness: on the concrete example table both reduced vectors have
the table's two rows. -/
theorem reducer_output_lengths_witness :
    ((dfHRF.filterLike "ts_ch").values.meanAxis1.length = 2
      ∧ (dfHRF.filterLike "std_ch").values.meanAxis1.length = 2) :=
  reducer_output_lengths fsHRF "hrf.csv" dfHRF
    (dfHRF.filterLike "ts_ch").values (dfHRF.filterLike "std_ch").values
    rfl rfl (by intro c hc; fin_cases hc <;> rfl) (by decide) (by decide)
    (parse_hrf_csv_ok fsHRF "hrf.csv" dfHRF rfl rfl)

/-- C10: whenever `parse_hrf_csv` succeeds, both returned matrices carry
the table's row count as their first shape component, and under
well-formedness every stored column has that length — independently of
the two groups' widths. -/
theorem parse_matrices_row_counts (fs : FileSystem) (path : String)
    (df : DataFrame) (ts std : NpMat)
    (hex : fs.pathExists path = true) (hread : fs.readCsv path = .ok df)
    (hok : parse_hrf_csv fs path = .ok (ts, std)) :
    ts.nrows = df.nrows ∧ std.nrows = df.nrows
    ∧ (df.WF → (∀ col ∈ ts.cols, col.length = df.nrows)
        ∧ (∀ col ∈ std.cols, col.length = df.nrows)) := by
  rw [parse_hrf_csv_ok fs path df hex hread] at hok
  simp only [Except.ok.injEq, Prod.mk.injEq] at hok
  obtain ⟨hts, hstd⟩ := hok
  subst hts hstd
  refine ⟨rfl, rfl, fun hwf => ⟨?_, ?_⟩⟩ <;>
  · intro col hcol
    simp only [DataFrame.values, DataFrame.filterLike, List.mem_map,
      List.mem_filter] at hcol
    obtain ⟨c, ⟨hc, _⟩, rfl⟩ := hcol
    exact hwf c hc

/-- A table whose spread group is empty: a single `ts_ch` column. -/
def dfOnlyTs : DataFrame := ⟨2, [⟨"ts_ch1", [1, 2]⟩]⟩

/-- A filesystem holding only `only_ts.csv`, mapped to `dfOnlyTs`. -/
def fsOnlyTs : FileSystem :=
  ⟨fun p => p == "only_ts.csv",
   fun p => if p == "only_ts.csv" then .ok dfOnlyTs else .error "missing"⟩

/-- C10 witness: on a table with one mean column and no spread column,
both matrices still report two rows. -/
theorem parse_matrices_row_counts_witness :
    (dfOnlyTs.filterLike "ts_ch").values.nrows = 2
    ∧ (dfOnlyTs.filterLike "std_ch").values.nrows = 2
    ∧ (dfOnlyTs.WF →
        (∀ col ∈ (dfOnlyTs.filterLike "ts_ch").values.cols, col.length = 2)
        ∧ (∀ col ∈ (dfOnlyTs.filterLike "std_ch").values.cols, col.length = 2)) :=
  parse_matrices_row_counts fsOnlyTs "only_ts.csv" dfOnlyTs
    (dfOnlyTs.filterLike "ts_ch").values (dfOnlyTs.filterLike "std_ch").values
    rfl rfl (parse_hrf_csv_ok fsOnlyTs "only_ts.csv" dfOnlyTs rfl rfl)

/-- Python's `sub in s` holds exactly when `s` decomposes as
`pre ++ sub ++ post`. -/
theorem strContainsSub_iff (s sub : String) :
    strContainsSub s sub = true ↔ ∃ pre post : String, s = pre ++ sub ++ post := by
  unfold strContainsSub
  rw [decide_eq_true_iff]
  constructor
  · rintro ⟨l, r, h⟩
    refine ⟨⟨l⟩, ⟨r⟩, ?_⟩
    cases s with
    | mk d => exact congrArg String.mk h.symm
  · rintro ⟨pre, post, rfl⟩
    exact ⟨pre.data, post.data, by simp [String.data_append]⟩

/-- C4: the splitter keeps exactly the columns whose name contains the
marker substring (case-sensitively — an upper-case name does not match),
ignores every other column, and an empty match silently yields a
zero-width matrix with the row count intact while `parse_hrf_csv` still
succeeds. -/
theorem splitter_selects_exactly (df : DataFrame) :
    (∀ c, c ∈ (df.filterLike "ts_ch").cols ↔
        c ∈ df.cols ∧ ∃ pre post : String, c.name = pre ++ "ts_ch" ++ post)
    ∧ (∀ c, c ∈ (df.filterLike "std_ch").cols ↔
        c ∈ df.cols ∧ ∃ pre post : String, c.name = pre ++ "std_ch" ++ post)
    ∧ strContainsSub "TS_CH1" "ts_ch" = false
    ∧ ((∀ c ∈ df.cols, strContainsSub c.name "std_ch" = false) →
        (df.filterLike "std_ch").values = ⟨df.nrows, []⟩
        ∧ ∀ (fs : FileSystem) (path : String),
            fs.pathExists path = true → fs.readCsv path = .ok df →
            parse_hrf_csv fs path =
              .ok ((df.filterLike "ts_ch").values, ⟨df.nrows, []⟩)) := by
  refine ⟨?_, ?_, by decide, ?_⟩
  · intro c
    simp [DataFrame.filterLike, List.mem_filter, strContainsSub_iff]
  · intro c
    simp [DataFrame.filterLike, List.mem_filter, strContainsSub_iff]
  · intro hnone
    have hempty : (df.filterLike "std_ch").values = ⟨df.nrows, []⟩ := by
      simp only [DataFrame.values, DataFrame.filterLike, NpMat.mk.injEq,
        true_and]
      rw [List.filter_eq_nil_iff.mpr ?_]
      · rfl
      · intro c hc
        simp [hnone c hc]
    refine ⟨hempty, fun fs path hex hread => ?_⟩
    rw [parse_hrf_csv_ok fs path df hex hread, hempty]

/-- C4 witness: on the single-mean-column table, membership in each group
and the silent empty spread group, at the concrete table. -/
theorem splitter_selects_exactly_witness :
    ((⟨"ts_ch1", [1, 2]⟩ : Column) ∈ (dfOnlyTs.filterLike "ts_ch").cols
      ↔ (⟨"ts_ch1", [1, 2]⟩ : Column) ∈ dfOnlyTs.cols
        ∧ ∃ pre post : String, "ts_ch1" = pre ++ "ts_ch" ++ post)
    ∧ ((dfOnlyTs.filterLike "std_ch").values = ⟨2, []⟩
        ∧ ∀ (fs : FileSystem) (path : String),
            fs.pathExists path = true → fs.readCsv path = .ok dfOnlyTs →
            parse_hrf_csv fs path =
              .ok ((dfOnlyTs.filterLike "ts_ch").values, ⟨2, []⟩)) :=
  ⟨(splitter_selects_exactly dfOnlyTs).1 ⟨"ts_ch1", [1, 2]⟩,
   (splitter_selects_exactly dfOnlyTs).2.2.2 (by decide)⟩

/-- C5: permuting the channel columns of a matrix leaves the per-row
mean vector unchanged. -/
theorem meanAxis1_perm_invariant (m₁ m₂ : NpMat)
    (hr : m₁.nrows = m₂.nrows) (hp : m₁.cols.Perm m₂.cols) :
    m₁.meanAxis1 = m₂.meanAxis1 := by
  unfold NpMat.meanAxis1
  rw [hr]
  apply List.map_congr_left
  intro i _
  have hsum : (m₁.cols.map (fun col => col.getD i 0)).sum
      = (m₂.cols.map (fun col => col.getD i 0)).sum :=
    (hp.map _).sum_eq
  rw [hp.length_eq, hsum]

/-- C5 witness: swapping the two channels of the example mean group. -/
theorem meanAxis1_perm_invariant_witness :
    (NpMat.meanAxis1 ⟨2, [[1, 3], [1, 5]]⟩)
      = (NpMat.meanAxis1 ⟨2, [[1, 5], [1, 3]]⟩) :=
  meanAxis1_perm_invariant ⟨2, [[1, 3], [1, 5]]⟩ ⟨2, [[1, 5], [1, 3]]⟩ rfl
    (List.Perm.swap _ _ _)

/-- C6: in a row whose channel values all equal `v`, the reducer's mean
for that row is exactly `v`. -/
theorem meanAxis1_const_row (m : NpMat) (i : Nat) (v : ℚ)
    (hi : i < m.nrows) (hnz : m.cols ≠ [])
    (hall : ∀ col ∈ m.cols, col.getD i 0 = v) :
    m.meanAxis1[i]? = some (some v) := by
  have hlen0 : m.cols.length ≠ 0 := by
    simpa [List.length_eq_zero] using hnz
  have hsum : (m.cols.map (fun col => col.getD i 0)).sum = m.cols.length • v := by
    rw [List.sum_eq_card_nsmul (m.cols.map fun col => col.getD i 0) v ?_]
    · simp
    · intro x hx
      obtain ⟨col, hcol, rfl⟩ := List.mem_map.mp hx
      exact hall col hcol
  unfold NpMat.meanAxis1
  rw [List.getElem?_map, List.getElem?_range hi, Option.map_some']
  rw [if_neg hlen0, hsum, nsmul_eq_mul]
  rw [mul_div_cancel_left₀ v (Nat.cast_ne_zero.mpr hlen0)]

/-- C6 witness: a constant row in a concrete two-channel matrix. -/
theorem meanAxis1_const_row_witness :
    (NpMat.meanAxis1 ⟨2, [[1, 3], [1, 5]]⟩)[0]? = some (some 1) :=
  meanAxis1_const_row ⟨2, [[1, 3], [1, 5]]⟩ 0 1 (by decide) (by decide)
    (by intro col hcol; fin_cases hcol <;> rfl)

/-- C7 counterexample: for a one-row trace the axis is `[0]`, which does
not end at 20, refuting "ending at 20" for every length N. -/
theorem time_axis_claim_counterexample :
    linspace 0 20 1 = [0] ∧ (linspace 0 20 1).getLast? ≠ some 20 := by
  have h : linspace 0 20 1 = [0] := by simp [linspace]
  refine ⟨h, ?_⟩
  rw [h]
  simp only [List.getLast?_singleton, ne_eq, Option.some.injEq]
  norm_num

/-- C7 amended: the axis always has exactly N entries; for N ≥ 2 it is
evenly spaced, starting at 0 and ending at 20, with i-th entry
`20·i/(N−1)`; for N = 1 it is the single point `[0]`. -/
theorem time_axis_amended (N : Nat) :
    (linspace 0 20 N).length = N
    ∧ (N = 1 → linspace 0 20 N = [0])
    ∧ (2 ≤ N →
        (linspace 0 20 N).head? = some 0
        ∧ (linspace 0 20 N).getLast? = some 20
        ∧ ∀ i, i < N → (linspace 0 20 N)[i]? = some (20 * i / ((N : ℚ) - 1))) := by
  have hlen : (linspace 0 20 N).length = N := by
    by_cases h0 : N = 0
    · simp [linspace, h0]
    · by_cases h1 : N = 1
      · simp [linspace, h0, h1]
      · unfold linspace
        rw [if_neg h0, if_neg h1, List.length_map, List.length_range]
  refine ⟨hlen, fun h1 => by simp [linspace, h1], fun h2 => ?_⟩
  have h0 : ¬N = 0 := by omega
  have h1 : ¬N = 1 := by omega
  have hform : ∀ i, i < N →
      (linspace 0 20 N)[i]? = some (20 * i / ((N : ℚ) - 1)) := by
    intro i hi
    unfold linspace
    rw [if_neg h0, if_neg h1]
    rw [List.getElem?_map, List.getElem?_range hi, Option.map_some']
    congr 1
    ring
  have hx : ((N : ℚ) - 1) ≠ 0 := by
    have h2q : (2 : ℚ) ≤ (N : ℚ) := by exact_mod_cast h2
    linarith
  refine ⟨?_, ?_, hform⟩
  · have h00 := hform 0 (by omega)
    rw [List.head?_eq_getElem?, h00]
    norm_num
  · have hN1 := hform (N - 1) (by omega)
    rw [List.getLast?_eq_getElem?, hlen, hN1]
    congr 1
    rw [Nat.cast_sub (by omega), Nat.cast_one]
    rw [mul_div_assoc, div_self hx, mul_one]

/-- C7 witness: at N = 2 the axis is two points, starting at 0 and
ending at 20. -/
theorem time_axis_amended_witness :
    (linspace 0 20 2).length = 2
    ∧ (linspace 0 20 2).head? = some 0
    ∧ (linspace 0 20 2).getLast? = some 20 :=
  ⟨(time_axis_amended 2).1,
   ((time_axis_amended 2).2.2 (by norm_num)).1,
   ((time_axis_amended 2).2.2 (by norm_num)).2.1⟩

/-- C1: on the spec's example table the pipeline's mean trace is `[1, 4]`,
its spread trace is `[0, 1]`, and the two-point time axis is `[0, 20]`. -/
theorem end_to_end_example :
    (disp_avg_HRF fsHRF "hrf.csv" "HRF Data" none true none).map
      (fun st => (st.t, st.ts_mean, st.std_avg))
      = .ok ([0, 20], [some 1, some 4], [some 0, some 1]) := by
  have hp := parse_hrf_csv_ok fsHRF "hrf.csv" dfHRF rfl rfl
  have hts : (dfHRF.filterLike "ts_ch").values = ⟨2, [[1, 3], [1, 5]]⟩ := rfl
  have hstd : (dfHRF.filterLike "std_ch").values = ⟨2, [[0, 0], [0, 2]]⟩ := rfl
  have hm : (NpMat.meanAxis1 ⟨2, [[1, 3], [1, 5]]⟩) = [some 1, some 4] := by
    simp [NpMat.meanAxis1, List.range_succ]
    norm_num
  have hs : (NpMat.meanAxis1 ⟨2, [[0, 0], [0, 2]]⟩) = [some 0, some 1] := by
    simp [NpMat.meanAxis1, List.range_succ]
  have hl : linspace 0 20 2 = [0, 20] := by
    simp [linspace, List.range_succ]
    norm_num
  have hr := renderHRF_fields [0, 20] [some 1, some 4] [some 0, some 1]
    "HRF Data" none true none
  simp only [disp_avg_HRF, hp, hts, hstd, hm, hs]
  simp only [show (⟨2, [[1, 3], [1, 5]]⟩ : NpMat).nrows = 2 from rfl, hl,
    Except.map, hr.1, hr.2.1, hr.2.2]

/-- C8 (evaluating the code at the failing input): with no spread
columns the pipeline completes without signalling anything — parse
succeeds with a zero-width spread matrix and the rendered spread trace
is NaN at every time point. -/
theorem zero_width_group_not_rejected :
    (disp_avg_HRF fsOnlyTs "only_ts.csv" "HRF Data" none true none).map
      (fun st => (st.t, st.ts_mean, st.std_avg))
      = .ok ([0, 20], [some 1, some 2], [none, none]) := by
  have hp := parse_hrf_csv_ok fsOnlyTs "only_ts.csv" dfOnlyTs rfl rfl
  have hts : (dfOnlyTs.filterLike "ts_ch").values = ⟨2, [[1, 2]]⟩ := rfl
  have hstd : (dfOnlyTs.filterLike "std_ch").values = ⟨2, []⟩ := rfl
  have hm : (NpMat.meanAxis1 ⟨2, [[1, 2]]⟩) = [some 1, some 2] := by
    simp [NpMat.meanAxis1, List.range_succ]
  have hs : (NpMat.meanAxis1 ⟨2, []⟩) = [none, none] := by
    simp [NpMat.meanAxis1, List.range_succ]
  have hl : linspace 0 20 2 = [0, 20] := by
    simp [linspace, List.range_succ]
    norm_num
  have hr := renderHRF_fields [0, 20] [some 1, some 2] [none, none]
    "HRF Data" none true none
  simp only [disp_avg_HRF, hp, hts, hstd, hm, hs]
  simp only [show (⟨2, [[1, 2]]⟩ : NpMat).nrows = 2 from rfl, hl,
    Except.map, hr.1, hr.2.1, hr.2.2]

end Beetroot
